import Mathlib

/-!
Shallow embedding of the RushEight backend ranking/search/delete service
(`UsersService` in the NestJS backend, plus the query-string coercion in
`UsersController.getRanked`).

The Record Store (Prisma over one `User` table) is modelled as a list of
records; each Prisma call either yields its result computed from that list
or fails with a store error (a driver error carrying a `code` string, which
for Prisma errors starts with "P").  `HttpException` values are modelled as
a status code plus a message.
-/

namespace RushEight

/-- A character record, with the columns selected by the service
(`id, userId, nickname, level, job, jobCode, meso, playTime, exp,
createdAt, updatedAt`).  Timestamps are modelled as integers. -/
structure User where
  id : String
  userId : String
  nickname : String
  level : Int
  job : String
  jobCode : Int
  meso : Int
  playTime : Int
  exp : Int
  createdAt : Int
  updatedAt : Int
  deriving Repr, DecidableEq

/-- An `HttpException`: HTTP status code plus message. -/
structure HErr where
  status : Nat
  message : String
  deriving Repr, DecidableEq

/-- A persistence-layer (Prisma driver) error: an error code string plus
detail message.  Prisma error codes start with "P". -/
structure StoreErr where
  code : String
  message : String
  deriving Repr, DecidableEq

/-- What arrives at the service's `catch` block: either an
`HttpException` thrown inside the `try`, or some other error possibly
carrying a `code` field. -/
inductive Caught where
  | httpEx (e : HErr)
  | other (code : Option String) (message : String)
  deriving Repr, DecidableEq

def dbErrorMessage : String := "An error occurred while accessing the database"

def unexpectedErrorMessage : String := "An unexpected error occurred"

def prismaPrefix : String := "P"

/-- `need` is a prefix of `hay` (character lists). -/
def prefixChars : List Char → List Char → Bool
  | [], _ => true
  | _ :: _, [] => false
  | a :: as, b :: bs => a == b && prefixChars as bs

/-- `code.startsWith('P')`. -/
def codeStartsWithP (code : String) : Bool :=
  prefixChars prismaPrefix.data code.data

/-- `UsersService.handleCommonErrors`: rethrows `HttpException` unchanged;
maps errors whose string `code` starts with "P" to a generic 500 database
message; maps everything else to a generic 500 message. -/
def handleCommonErrors : Caught → HErr
  | .httpEx e => e
  | .other (some code) _ =>
      if codeStartsWithP code then ⟨500, dbErrorMessage⟩
      else ⟨500, unexpectedErrorMessage⟩
  | .other none _ => ⟨500, unexpectedErrorMessage⟩

/-- JavaScript `String.prototype.trim()`: strip leading and trailing
whitespace (structural on the character list, unlike `String.trim`). -/
def jsTrim (s : String) : String :=
  ⟨((s.data.dropWhile Char.isWhitespace).reverse.dropWhile Char.isWhitespace).reverse⟩

/-- JavaScript `String.prototype.length` (code points in this model). -/
def strLen (s : String) : Nat := s.data.length

def pageMessage : String := "Page number must be a positive integer"

def pageSizeMessage : String := "Page size must be an integer between 1 and 1000"

/-- `UsersService.validatePageParams`.  The TS inputs are `number`s checked
with `Number.isInteger`; the embedding uses `Int`, so integrality is carried
by the type and only the range checks remain. -/
def validatePageParams (page pageSize : Int) : Option HErr :=
  if page < 1 then some ⟨400, pageMessage⟩
  else if pageSize < 1 || 1000 < pageSize then some ⟨400, pageSizeMessage⟩
  else none

/-- The characters rejected by the `/[<>{}[\]\\]/` regex. -/
def forbiddenChars : List Char := ['<', '>', '{', '}', '[', ']', '\\']

def hasForbiddenChar (s : String) : Bool :=
  s.data.any (fun c => forbiddenChars.contains c)

def emptyKeywordMessage : String := "Search keyword cannot be empty"

def shortKeywordMessage : String := "Search keyword must be at least 2 characters long"

def longKeywordMessage : String := "Search keyword cannot exceed 30 characters"

def invalidCharsKeywordMessage : String := "Search keyword contains invalid characters"

/-- `UsersService.validateKeyword`. -/
def validateKeyword (keyword : String) : Option HErr :=
  if strLen (jsTrim keyword) == 0 then some ⟨400, emptyKeywordMessage⟩
  else if strLen (jsTrim keyword) < 2 then some ⟨400, shortKeywordMessage⟩
  else if 30 < strLen (jsTrim keyword) then some ⟨400, longKeywordMessage⟩
  else if hasForbiddenChar (jsTrim keyword) then some ⟨400, invalidCharsKeywordMessage⟩
  else none

def invalidUserIdMessage : String := "Invalid userId format"

def longUserIdMessage : String := "UserId cannot exceed 30 characters"

def invalidCharsUserIdMessage : String := "UserId contains invalid characters"

/-- `UsersService.validateUserId` (no trimming here, unlike the keyword). -/
def validateUserId (userId : String) : Option HErr :=
  if strLen userId == 0 then some ⟨400, invalidUserIdMessage⟩
  else if 30 < strLen userId then some ⟨400, longUserIdMessage⟩
  else if hasForbiddenChar userId then some ⟨400, invalidCharsUserIdMessage⟩
  else none

/-- The Prisma ordering `[{ level: 'desc' }, { exp: 'desc' }]` as a boolean
total preorder: `a` may come before `b`. -/
def rankLE (a b : User) : Bool :=
  decide (b.level < a.level) || (decide (a.level = b.level) && decide (b.exp ≤ a.exp))

/-- A sorted range scan over the whole table, as issued by
`prisma.user.findMany({ orderBy: [{ level: 'desc' }, { exp: 'desc' }] })`. -/
def rankSort (users : List User) : List User := users.mergeSort rankLE

/-- Behaviour of the Record Store during one `getRankedUsers` call: either
both calls succeed against the table `users`, or `count()` fails, or
`count()` succeeds and the subsequent `findMany` fails. -/
inductive StoreBehavior where
  | fine (users : List User)
  | failCount (e : StoreErr)
  | failFetch (users : List User) (e : StoreErr)
  deriving Repr

/-- `prisma.user.count()`. -/
def storeCount : StoreBehavior → Except StoreErr Nat
  | .fine users => .ok users.length
  | .failCount e => .error e
  | .failFetch users _ => .ok users.length

/-- `prisma.user.findMany({ orderBy: …, skip, take })`. -/
def storeFetchRanked : StoreBehavior → Nat → Nat → Except StoreErr (List User)
  | .fine users, skip, take => .ok (((rankSort users).drop skip).take take)
  | .failCount e, _, _ => .error e
  | .failFetch _ e, _, _ => .error e

/-- The shape built by `buildRankedUsersResponse`. -/
structure RankedResponse where
  users : List User
  totalCount : Nat
  currentPage : Int
  totalPages : Nat
  hasMore : Bool
  deriving Repr, DecidableEq

def pageNotFoundMessage (page : Int) (totalPages : Nat) : String :=
  "Page " ++ toString page ++ " does not exist. Total pages: " ++ toString totalPages

def storeErrCaught (se : StoreErr) : Caught := .other (some se.code) se.message

/-- `Math.ceil(tc / ps)` on naturals (for `ps > 0`). -/
def ceilPages (tc ps : Nat) : Nat := (tc + ps - 1) / ps

/-- `UsersService.getRankedUsers`. -/
def getRankedUsers (db : StoreBehavior) (page pageSize : Int) :
    Except HErr RankedResponse :=
  match validatePageParams page pageSize with
  | some e => .error e
  | none =>
    match storeCount db with
    | .error se => .error (handleCommonErrors (storeErrCaught se))
    | .ok totalUserCount =>
      if totalUserCount == 0 then
        .ok ⟨[], 0, page, 0, false⟩
      else
        let ps := pageSize.toNat
        let totalPages := ceilPages totalUserCount ps
        if (totalPages : Int) < page then
          .error (handleCommonErrors (.httpEx ⟨404, pageNotFoundMessage page totalPages⟩))
        else
          let skip := (page - 1).toNat * ps
          match storeFetchRanked db skip ps with
          | .error se => .error (handleCommonErrors (storeErrCaught se))
          | .ok users =>
            .ok ⟨users, totalUserCount, page, totalPages,
                 decide (skip + ps < totalUserCount)⟩

/-- The columns selected by `searchUsersByKeyword` (no `id`, no
`updatedAt`). -/
structure SearchUserView where
  userId : String
  nickname : String
  level : Int
  job : String
  jobCode : Int
  meso : Int
  playTime : Int
  exp : Int
  createdAt : Int
  deriving Repr, DecidableEq

def toSearchView (u : User) : SearchUserView :=
  ⟨u.userId, u.nickname, u.level, u.job, u.jobCode, u.meso, u.playTime,
   u.exp, u.createdAt⟩

def lowerChars (s : String) : List Char := s.data.map Char.toLower

/-- `need` occurs as a contiguous substring of `hay` (character lists). -/
def containsChars (hay need : List Char) : Bool :=
  match hay with
  | [] => need.isEmpty
  | _ :: rest => prefixChars need hay || containsChars rest need

/-- Prisma `contains … mode: 'insensitive'`: case-insensitive substring. -/
def ciContains (hay need : String) : Bool :=
  containsChars (lowerChars hay) (lowerChars need)

/-- The `where` filter of the search query: trimmed keyword occurs
case-insensitively in `userId` or in `nickname`. -/
def matchesKeyword (trimmed : String) (u : User) : Bool :=
  ciContains u.userId trimmed || ciContains u.nickname trimmed

structure SearchResponse where
  searchResults : List SearchUserView
  totalCount : Nat
  keyword : String
  deriving Repr, DecidableEq

/-- `UsersService.searchUsersByKeyword`: filter, order by level desc then
exp desc, `take: 50`, project the selected columns. -/
def searchUsersByKeyword (db : Except StoreErr (List User)) (keyword : String) :
    Except HErr SearchResponse :=
  match validateKeyword keyword with
  | some e => .error e
  | none =>
    match db with
    | .error se => .error (handleCommonErrors (storeErrCaught se))
    | .ok users =>
      let results :=
        ((rankSort (users.filter (matchesKeyword (jsTrim keyword)))).take 50).map toSearchView
      .ok ⟨results, results.length, jsTrim keyword⟩

structure DeleteResponse where
  success : Bool
  message : String
  deriving Repr, DecidableEq

def userNotFoundMessage : String := "User not found"

def deletedMessage (userId : String) : String :=
  "User with userId " ++ userId ++ " has been deleted."

/-- `UsersService.deleteUserByUserId`.  Returns the response (or error)
together with the store state afterwards; `prisma.user.delete` on the
unique key `userId` is the removal of the matching record. -/
def deleteUserByUserId (db : Except StoreErr (List User)) (userId : String) :
    Except HErr DeleteResponse × Except StoreErr (List User) :=
  match validateUserId userId with
  | some e => (.error e, db)
  | none =>
    match db with
    | .error se => (.error (handleCommonErrors (storeErrCaught se)), db)
    | .ok users =>
      match users.find? (fun u => u.userId == userId) with
      | none => (.error (handleCommonErrors (.httpEx ⟨404, userNotFoundMessage⟩)), db)
      | some _ =>
        (.ok ⟨true, deletedMessage userId⟩,
         .ok (users.filter (fun u => !(u.userId == userId))))

/-- Decimal-digit prefix of a character list, as consumed by
`parseInt(s, 10)`; `none` when there is no digit (`NaN`). -/
def parseDigits (cs : List Char) : Option Nat :=
  let ds := cs.takeWhile Char.isDigit
  if ds.isEmpty then none
  else some (ds.foldl (fun acc c => acc * 10 + (c.toNat - 48)) 0)

/-- JavaScript `parseInt(s, 10)`: skip leading whitespace, optional sign,
longest digit prefix; `none` models `NaN`. -/
def parseIntJS (s : String) : Option Int :=
  match s.data.dropWhile Char.isWhitespace with
  | '-' :: rest => (parseDigits rest).map (fun n => -(n : Int))
  | '+' :: rest => (parseDigits rest).map (fun n => (n : Int))
  | cs => (parseDigits cs).map (fun n => (n : Int))

/-- JavaScript `x || d` on numbers: `NaN` and `0` are falsy. -/
def jsOrInt (v : Option Int) (d : Int) : Int :=
  match v with
  | none => d
  | some n => if n == 0 then d else n

/-- `UsersController.getRanked`: coerce the `page`/`pageSize` query strings
with `parseInt(…, 10) || default` and call the service.  A missing query
parameter is `undefined`, on which `parseInt` yields `NaN`. -/
def controllerGetRanked (db : StoreBehavior) (page pageSize : Option String) :
    Except HErr RankedResponse :=
  let pageNum := jsOrInt (page.bind parseIntJS) 1
  let pageSizeNum := jsOrInt (pageSize.bind parseIntJS) 10
  getRankedUsers db pageNum pageSizeNum

/-! Sample data used by witnesses. -/

def sampleUserA : User := ⟨"idA", "alpha", "Alpha", 50, "Warrior", 1, 100, 10, 100, 0, 0⟩

def sampleUserB : User := ⟨"idB", "beta", "Beta", 50, "Mage", 2, 200, 20, 200, 0, 0⟩

def sampleUserC : User := ⟨"idC", "gamma", "Gamma", 40, "Thief", 3, 300, 30, 999, 0, 0⟩

/-- Identical to `sampleUserA` in every column except the internal primary
key `id` and the `updatedAt` timestamp. -/
def sampleUserA2 : User := ⟨"idA2", "alpha", "Alpha", 50, "Warrior", 1, 100, 10, 100, 0, 7⟩

def sampleStoreErr : StoreErr := ⟨"P1001", "connection refused at 10.0.0.3:5432"⟩

def samplePrismaCode : String := "P2002"

def sampleDetail : String := "unique constraint violated on userId"

/-! Helper lemmas about the ordering and the sorted scan. -/

theorem rankLE_total (a b : User) : rankLE a b || rankLE b a := by
  simp only [rankLE, Bool.or_eq_true, Bool.and_eq_true, decide_eq_true_eq]
  omega

theorem rankLE_trans (a b c : User) : rankLE a b → rankLE b c → rankLE a c := by
  simp only [rankLE, Bool.or_eq_true, Bool.and_eq_true, decide_eq_true_eq]
  omega

theorem rankSort_pairwise (users : List User) :
    (rankSort users).Pairwise (fun a b => rankLE a b = true) := by
  have h := List.sorted_mergeSort rankLE_trans rankLE_total users
  exact h

theorem rankSort_perm (users : List User) : List.Perm (rankSort users) users :=
  List.mergeSort_perm users rankLE

theorem rankSort_length (users : List User) :
    (rankSort users).length = users.length :=
  (rankSort_perm users).length_eq

theorem mem_rankSort {u : User} {users : List User} :
    u ∈ rankSort users ↔ u ∈ users :=
  (rankSort_perm users).mem_iff

/-! Helper lemmas about validation and error handling. -/

theorem validatePageParams_isSome (page pageSize : Int) :
    (validatePageParams page pageSize).isSome ↔
      (page < 1 ∨ pageSize < 1 ∨ 1000 < pageSize) := by
  unfold validatePageParams
  split_ifs with h1 h2
  · simp only [Option.isSome_some, true_iff]
    exact Or.inl h1
  · simp only [Option.isSome_some, true_iff]
    simp only [Bool.or_eq_true, decide_eq_true_eq] at h2
    omega
  · simp only [Bool.or_eq_true, decide_eq_true_eq] at h2
    simp only [Option.isSome_none]
    constructor
    · intro h
      exact absurd h (by simp)
    · intro h
      exact absurd h (by omega)

theorem validatePageParams_some_status (page pageSize : Int) (e : HErr)
    (h : validatePageParams page pageSize = some e) : e.status = 400 := by
  unfold validatePageParams at h
  split_ifs at h <;> cases h <;> rfl

theorem getRankedUsers_validation_error (db : StoreBehavior) (page pageSize : Int)
    (e : HErr) (h : validatePageParams page pageSize = some e) :
    getRankedUsers db page pageSize = .error e := by
  unfold getRankedUsers
  rw [h]

theorem handleCommonErrors_status (c : Option String) (m : String) :
    (handleCommonErrors (.other c m)).status = 500 := by
  rcases c with _ | code
  · rfl
  · by_cases h : codeStartsWithP code <;> simp [handleCommonErrors, h]

theorem getRankedUsers_error_status (db : StoreBehavior) (page pageSize : Int)
    (e : HErr) (hv : validatePageParams page pageSize = none)
    (he : getRankedUsers db page pageSize = .error e) :
    e.status = 404 ∨ e.status = 500 := by
  unfold getRankedUsers at he
  rw [hv] at he
  rcases db with users | se | ⟨users, se⟩ <;>
    simp only [storeCount, storeFetchRanked] at he
  · split at he
    · exact absurd he (by simp)
    · split at he
      · rw [show handleCommonErrors (.httpEx ⟨404, pageNotFoundMessage page
            (ceilPages users.length pageSize.toNat)⟩) =
            ⟨404, pageNotFoundMessage page
            (ceilPages users.length pageSize.toNat)⟩ from rfl] at he
        cases he
        exact Or.inl rfl
      · exact absurd he (by simp)
  · cases he
    exact Or.inr (handleCommonErrors_status _ _)
  · split at he
    · exact absurd he (by simp)
    · split at he
      · rw [show handleCommonErrors (.httpEx ⟨404, pageNotFoundMessage page
            (ceilPages users.length pageSize.toNat)⟩) =
            ⟨404, pageNotFoundMessage page
            (ceilPages users.length pageSize.toNat)⟩ from rfl] at he
        cases he
        exact Or.inl rfl
      · cases he
        exact Or.inr (handleCommonErrors_status _ _)

/-! Claim theorems. -/

/-- C4: the list-ranked-records operation fails with `InvalidArgument`
(HTTP 400), before any store access, if and only if `page` is not a
positive integer or `pageSize` is not an integer in `[1, 1000]`
(integrality being carried by the `Int` type); out-of-range values are
rejected, never clamped. -/
theorem c4_page_param_validation (page pageSize : Int) (db : StoreBehavior) :
    ((validatePageParams page pageSize).isSome ↔
      (page < 1 ∨ pageSize < 1 ∨ 1000 < pageSize)) ∧
    (∀ e, validatePageParams page pageSize = some e →
      e.status = 400 ∧ getRankedUsers db page pageSize = .error e) ∧
    (validatePageParams page pageSize = none →
      ∀ e, getRankedUsers db page pageSize = .error e → e.status ≠ 400) := by
  refine ⟨validatePageParams_isSome page pageSize, ?_, ?_⟩
  · intro e he
    exact ⟨validatePageParams_some_status page pageSize e he,
           getRankedUsers_validation_error db page pageSize e he⟩
  · intro hv e he
    rcases getRankedUsers_error_status db page pageSize e hv he with h | h <;> omega

/-- Witness for C4 at `page = 1`, `pageSize = 0` (and, in the statement's
first conjunct, the range conditions are checked concretely): `pageSize = 0`
fails with a 400 error regardless of the store. -/
theorem c4_page_param_validation_witness :
    ((validatePageParams 1 0).isSome ↔ ((1 : Int) < 1 ∨ (0 : Int) < 1 ∨ (1000 : Int) < 0)) ∧
    (∀ e, validatePageParams 1 0 = some e →
      e.status = 400 ∧ getRankedUsers (.failCount sampleStoreErr) 1 0 = .error e) ∧
    (validatePageParams 1 0 = none →
      ∀ e, getRankedUsers (.failCount sampleStoreErr) 1 0 = .error e → e.status ≠ 400) :=
  c4_page_param_validation 1 0 (.failCount sampleStoreErr)

/-- C3: with an empty store (`totalCount = 0`) and any valid `page`,
`pageSize`, listing returns an empty list with `totalCount = 0`,
`totalPages = 0`, `hasMore = false`, and `currentPage` the requested page —
no `NotFound` — and the result is the same even when the store's fetch
operation would fail, i.e. nothing beyond the count is queried. -/
theorem c3_empty_store (page pageSize : Int) (fetchErr : StoreErr) (users : List User)
    (hv : validatePageParams page pageSize = none) (h0 : users.length = 0) :
    getRankedUsers (.fine users) page pageSize = .ok ⟨[], 0, page, 0, false⟩ ∧
    getRankedUsers (.failFetch [] fetchErr) page pageSize = .ok ⟨[], 0, page, 0, false⟩ := by
  have husers : users = [] := List.length_eq_zero.mp h0
  subst husers
  constructor <;> (unfold getRankedUsers; rw [hv]; rfl)

/-- Witness for C3 at `page = 99`, `pageSize = 10` on the empty store. -/
theorem c3_empty_store_witness :
    getRankedUsers (.fine []) 99 10 = .ok ⟨[], 0, 99, 0, false⟩ ∧
    getRankedUsers (.failFetch [] sampleStoreErr) 99 10 = .ok ⟨[], 0, 99, 0, false⟩ :=
  c3_empty_store 99 10 sampleStoreErr [] (by decide) rfl

/-- C8: error classification. An already-classified failure (an
`HttpException`) propagates unchanged; a failure whose driver code starts
with "P" (a Record Store failure) is replaced by the generic 500 database
message regardless of its detail; any other failure becomes the generic
500 internal message; validation errors are raised before any store access
(the store may even be failing), and validation short-circuits on the
first failing rule (an invalid `page` yields the page message whatever
`pageSize` is). -/
theorem c8_error_classification (e : HErr) (code msg : String) (db : StoreBehavior)
    (page pageSize : Int) (ev : HErr) (se : StoreErr) (kw uid : String) (e2 e3 : HErr)
    (hv : validatePageParams page pageSize = some ev)
    (hk : validateKeyword kw = some e2)
    (hu : validateUserId uid = some e3) :
    handleCommonErrors (.httpEx e) = e ∧
    handleCommonErrors (.other (some code) msg) =
      (if codeStartsWithP code then ⟨500, dbErrorMessage⟩
       else ⟨500, unexpectedErrorMessage⟩) ∧
    handleCommonErrors (.other none msg) = ⟨500, unexpectedErrorMessage⟩ ∧
    getRankedUsers db page pageSize = .error ev ∧
    searchUsersByKeyword (.error se) kw = .error e2 ∧
    (deleteUserByUserId (.error se) uid).1 = .error e3 ∧
    (page < 1 → validatePageParams page pageSize = some ⟨400, pageMessage⟩) := by
  refine ⟨rfl, rfl, rfl, getRankedUsers_validation_error db page pageSize ev hv, ?_, ?_, ?_⟩
  · unfold searchUsersByKeyword
    rw [hk]
  · unfold deleteUserByUserId
    rw [hu]
  · intro hp
    unfold validatePageParams
    rw [if_pos hp]

/-- Witness for C8: a 404 exception propagates unchanged; the Prisma code
"P2002" maps to the generic database message; page 0 with a failing store
still yields the page-validation error; keyword "a" and the empty userId
short-circuit before the (failing) store. -/
theorem c8_error_classification_witness :
    handleCommonErrors (.httpEx ⟨404, userNotFoundMessage⟩) = ⟨404, userNotFoundMessage⟩ ∧
    handleCommonErrors (.other (some samplePrismaCode) sampleDetail) =
      (if codeStartsWithP samplePrismaCode then ⟨500, dbErrorMessage⟩
       else ⟨500, unexpectedErrorMessage⟩) ∧
    handleCommonErrors (.other none sampleDetail) = ⟨500, unexpectedErrorMessage⟩ ∧
    getRankedUsers (.failCount sampleStoreErr) 0 5 = .error ⟨400, pageMessage⟩ ∧
    searchUsersByKeyword (.error sampleStoreErr) ("a") = .error ⟨400, shortKeywordMessage⟩ ∧
    (deleteUserByUserId (.error sampleStoreErr) ("")).1 = .error ⟨400, invalidUserIdMessage⟩ ∧
    ((0 : Int) < 1 → validatePageParams 0 5 = some ⟨400, pageMessage⟩) :=
  c8_error_classification ⟨404, userNotFoundMessage⟩ samplePrismaCode sampleDetail
    (.failCount sampleStoreErr) 0 5 ⟨400, pageMessage⟩ sampleStoreErr ("a") ("")
    ⟨400, shortKeywordMessage⟩ ⟨400, invalidUserIdMessage⟩ (by decide) (by decide) (by decide)

theorem getRankedUsers_fine_nonzero (users : List User) (page pageSize : Int)
    (hv : validatePageParams page pageSize = none) (h0 : users.length ≠ 0) :
    getRankedUsers (.fine users) page pageSize =
      (if ((ceilPages users.length pageSize.toNat : Nat) : Int) < page then
        .error ⟨404, pageNotFoundMessage page (ceilPages users.length pageSize.toNat)⟩
      else
        .ok ⟨((rankSort users).drop ((page - 1).toNat * pageSize.toNat)).take pageSize.toNat,
             users.length, page, ceilPages users.length pageSize.toNat,
             decide ((page - 1).toNat * pageSize.toNat + pageSize.toNat < users.length)⟩) := by
  unfold getRankedUsers
  rw [hv]
  simp only [storeCount, storeFetchRanked]
  rw [if_neg (by simpa using h0)]
  rfl

/-- C1: for every store with `totalCount > 0` and valid `page`, `pageSize`:
if `page` exceeds `totalPages = ceil(totalCount / pageSize)` the listing
fails with `NotFound` (404) — strict boundary, no clamping — and otherwise
it returns the window of the ranked order that skips `(page-1)*pageSize`
records and holds exactly `min(pageSize, totalCount - (page-1)*pageSize)`
records, together with `totalCount`, the requested page, `totalPages`, and
`hasMore = (skip + pageSize) < totalCount`. -/
theorem c1_ranked_pagination (users : List User) (page pageSize : Int)
    (hpage : 1 ≤ page) (hps1 : 1 ≤ pageSize) (hps2 : pageSize ≤ 1000)
    (h0 : users.length ≠ 0) :
    (((ceilPages users.length pageSize.toNat : Nat) : Int) < page →
      getRankedUsers (.fine users) page pageSize =
        .error ⟨404, pageNotFoundMessage page (ceilPages users.length pageSize.toNat)⟩) ∧
    (page ≤ ((ceilPages users.length pageSize.toNat : Nat) : Int) →
      getRankedUsers (.fine users) page pageSize =
        .ok ⟨((rankSort users).drop ((page - 1).toNat * pageSize.toNat)).take pageSize.toNat,
             users.length, page, ceilPages users.length pageSize.toNat,
             decide ((page - 1).toNat * pageSize.toNat + pageSize.toNat < users.length)⟩ ∧
      (((rankSort users).drop ((page - 1).toNat * pageSize.toNat)).take pageSize.toNat).length
        = min pageSize.toNat (users.length - (page - 1).toNat * pageSize.toNat)) := by
  have hv : validatePageParams page pageSize = none := by
    unfold validatePageParams
    rw [if_neg (by omega), if_neg (by simp only [Bool.or_eq_true, decide_eq_true_eq]; omega)]
  constructor
  · intro hgt
    rw [getRankedUsers_fine_nonzero users page pageSize hv h0, if_pos hgt]
  · intro hle
    rw [getRankedUsers_fine_nonzero users page pageSize hv h0, if_neg (by omega)]
    refine ⟨rfl, ?_⟩
    rw [List.length_take, List.length_drop, rankSort_length]

/-- Witness for C1 on a three-record store with `page = 2`, `pageSize = 2`:
the second page exists (`totalPages = 2`) and holds
`min(2, 3 - 2) = 1` record. -/
theorem c1_ranked_pagination_witness :
    (((ceilPages ([sampleUserA, sampleUserB, sampleUserC].length) (2 : Int).toNat : Nat) : Int) < 2 →
      getRankedUsers (.fine [sampleUserA, sampleUserB, sampleUserC]) 2 2 =
        .error ⟨404, pageNotFoundMessage 2
          (ceilPages ([sampleUserA, sampleUserB, sampleUserC].length) (2 : Int).toNat)⟩) ∧
    ((2 : Int) ≤ ((ceilPages ([sampleUserA, sampleUserB, sampleUserC].length) (2 : Int).toNat : Nat) : Int) →
      getRankedUsers (.fine [sampleUserA, sampleUserB, sampleUserC]) 2 2 =
        .ok ⟨((rankSort [sampleUserA, sampleUserB, sampleUserC]).drop
                (((2 : Int) - 1).toNat * (2 : Int).toNat)).take (2 : Int).toNat,
             [sampleUserA, sampleUserB, sampleUserC].length, 2,
             ceilPages ([sampleUserA, sampleUserB, sampleUserC].length) (2 : Int).toNat,
             decide (((2 : Int) - 1).toNat * (2 : Int).toNat + (2 : Int).toNat <
               [sampleUserA, sampleUserB, sampleUserC].length)⟩ ∧
      (((rankSort [sampleUserA, sampleUserB, sampleUserC]).drop
          (((2 : Int) - 1).toNat * (2 : Int).toNat)).take (2 : Int).toNat).length
        = min (2 : Int).toNat
            ([sampleUserA, sampleUserB, sampleUserC].length - ((2 : Int) - 1).toNat * (2 : Int).toNat)) :=
  c1_ranked_pagination [sampleUserA, sampleUserB, sampleUserC] 2 2
    (by decide) (by decide) (by decide) (by decide)

theorem rankLE_iff (a b : User) : rankLE a b = true ↔
    (b.level < a.level ∨ (a.level = b.level ∧ b.exp ≤ a.exp)) := by
  simp [rankLE]

theorem getRankedUsers_ok_users (users : List User) (page pageSize : Int) (r : RankedResponse)
    (h : getRankedUsers (.fine users) page pageSize = .ok r) :
    r.users = [] ∨ ∃ skip ps, r.users = ((rankSort users).drop skip).take ps := by
  unfold getRankedUsers at h
  rcases hvp : validatePageParams page pageSize with _ | e
  · rw [hvp] at h
    simp only [storeCount, storeFetchRanked] at h
    by_cases h0 : users.length == 0
    · rw [if_pos h0] at h
      cases h
      exact Or.inl rfl
    · rw [if_neg h0] at h
      split at h
      · exact absurd h (by simp)
      · cases h
        exact Or.inr ⟨_, _, rfl⟩
  · rw [hvp] at h
    exact absurd h (by simp)

theorem searchUsersByKeyword_ok_shape (users : List User) (keyword : String) (s : SearchResponse)
    (h : searchUsersByKeyword (.ok users) keyword = .ok s) :
    s = ⟨((rankSort (users.filter (matchesKeyword (jsTrim keyword)))).take 50).map toSearchView,
         (((rankSort (users.filter (matchesKeyword (jsTrim keyword)))).take 50).map toSearchView).length,
         jsTrim keyword⟩ := by
  unfold searchUsersByKeyword at h
  rcases hk : validateKeyword keyword with _ | e
  · rw [hk] at h
    cases h
    rfl
  · rw [hk] at h
    exact absurd h (by simp)

theorem pairwise_rankSort_prop (users : List User) :
    (rankSort users).Pairwise
      (fun a b => b.level < a.level ∨ (a.level = b.level ∧ b.exp ≤ a.exp)) := by
  refine (rankSort_pairwise users).imp ?_
  intro a b hab
  exact (rankLE_iff a b).mp hab

theorem pairwise_segment (users : List User) (skip ps : Nat) :
    (((rankSort users).drop skip).take ps).Pairwise
      (fun a b => b.level < a.level ∨ (a.level = b.level ∧ b.exp ≤ a.exp)) := by
  have hsub : (((rankSort users).drop skip).take ps).Sublist (rankSort users) :=
    (List.take_sublist _ _).trans (List.drop_sublist _ _)
  exact (pairwise_rankSort_prop users).sublist hsub

/-- C2: every result list of the list-ranked-records operation and of the
search operation is sorted non-increasingly by level, ties broken
non-increasingly by experience: adjacent records `r1` before `r2` satisfy
`r1.level > r2.level` or `r1.level = r2.level ∧ r1.exp ≥ r2.exp`. -/
theorem c2_sorted_results (users : List User) (page pageSize : Int) (keyword : String)
    (r : RankedResponse) (s : SearchResponse)
    (hr : getRankedUsers (.fine users) page pageSize = .ok r)
    (hs : searchUsersByKeyword (.ok users) keyword = .ok s) :
    List.Chain'
      (fun r1 r2 : User => r2.level < r1.level ∨ (r1.level = r2.level ∧ r2.exp ≤ r1.exp))
      r.users ∧
    List.Chain'
      (fun r1 r2 : SearchUserView => r2.level < r1.level ∨ (r1.level = r2.level ∧ r2.exp ≤ r1.exp))
      s.searchResults := by
  constructor
  · rcases getRankedUsers_ok_users users page pageSize r hr with h | ⟨skip, ps, h⟩
    · rw [h]
      exact List.chain'_nil
    · rw [h]
      exact (pairwise_segment users skip ps).chain'
  · rw [searchUsersByKeyword_ok_shape users keyword s hs]
    refine List.Pairwise.chain' ?_
    refine (List.pairwise_map).mpr ?_
    refine List.Pairwise.imp ?_
      (pairwise_segment (users.filter (matchesKeyword (jsTrim keyword))) 0 50)
    intro a b hab
    exact hab

/-- Witness for C2 on the three-record store: page 1 of size 10 and the
search for "be" both come back sorted. -/
theorem c2_sorted_results_witness :
    List.Chain'
      (fun r1 r2 : User => r2.level < r1.level ∨ (r1.level = r2.level ∧ r2.exp ≤ r1.exp))
      (RankedResponse.users
        ⟨((rankSort [sampleUserA, sampleUserB, sampleUserC]).drop 0).take 10, 3, 1, 1, false⟩) ∧
    List.Chain'
      (fun r1 r2 : SearchUserView => r2.level < r1.level ∨ (r1.level = r2.level ∧ r2.exp ≤ r1.exp))
      (SearchResponse.searchResults
        ⟨((rankSort ([sampleUserA, sampleUserB, sampleUserC].filter
             (matchesKeyword (jsTrim ("be"))))).take 50).map toSearchView,
          (((rankSort ([sampleUserA, sampleUserB, sampleUserC].filter
             (matchesKeyword (jsTrim ("be"))))).take 50).map toSearchView).length,
          jsTrim ("be")⟩) :=
  c2_sorted_results [sampleUserA, sampleUserB, sampleUserC] 1 10 ("be")
    ⟨((rankSort [sampleUserA, sampleUserB, sampleUserC]).drop 0).take 10, 3, 1, 1, false⟩
    ⟨((rankSort ([sampleUserA, sampleUserB, sampleUserC].filter
         (matchesKeyword (jsTrim ("be"))))).take 50).map toSearchView,
      (((rankSort ([sampleUserA, sampleUserB, sampleUserC].filter
         (matchesKeyword (jsTrim ("be"))))).take 50).map toSearchView).length,
      jsTrim ("be")⟩
    rfl rfl

theorem validateKeyword_isSome (keyword : String) :
    (validateKeyword keyword).isSome ↔
      (strLen (jsTrim keyword) < 2 ∨ 30 < strLen (jsTrim keyword) ∨
       hasForbiddenChar (jsTrim keyword) = true) := by
  unfold validateKeyword
  split_ifs with h1 h2 h3 h4
  · simp only [Option.isSome_some, true_iff]
    simp only [beq_iff_eq] at h1
    exact Or.inl (by omega)
  · simp only [Option.isSome_some, true_iff]
    exact Or.inl h2
  · simp only [Option.isSome_some, true_iff]
    exact Or.inr (Or.inl h3)
  · simp only [Option.isSome_some, true_iff]
    exact Or.inr (Or.inr h4)
  · simp only [Option.isSome_none]
    constructor
    · intro h
      exact absurd h (by simp)
    · intro h
      rcases h with h | h | h
      · exact absurd h h2
      · exact absurd h h3
      · exact absurd h h4

/-- C5: the search operation fails with `InvalidArgument` (400), with a
reason-specific message and before any store access, exactly when the
trimmed keyword is empty, shorter than 2, longer than 30, or contains one
of the forbidden characters; any other keyword proceeds to query the
store (so a failing store then determines the outcome). -/
theorem c5_keyword_validation (keyword : String) (se : StoreErr)
    (db : Except StoreErr (List User)) :
    ((validateKeyword keyword).isSome ↔
      (strLen (jsTrim keyword) < 2 ∨ 30 < strLen (jsTrim keyword) ∨
       hasForbiddenChar (jsTrim keyword) = true)) ∧
    (∀ e, validateKeyword keyword = some e →
      e.status = 400 ∧ searchUsersByKeyword db keyword = .error e) ∧
    (strLen (jsTrim keyword) = 0 →
      validateKeyword keyword = some ⟨400, emptyKeywordMessage⟩) ∧
    (strLen (jsTrim keyword) = 1 →
      validateKeyword keyword = some ⟨400, shortKeywordMessage⟩) ∧
    (30 < strLen (jsTrim keyword) →
      validateKeyword keyword = some ⟨400, longKeywordMessage⟩) ∧
    (2 ≤ strLen (jsTrim keyword) → strLen (jsTrim keyword) ≤ 30 →
      hasForbiddenChar (jsTrim keyword) = true →
      validateKeyword keyword = some ⟨400, invalidCharsKeywordMessage⟩) ∧
    (validateKeyword keyword = none →
      searchUsersByKeyword (.error se) keyword =
        .error (handleCommonErrors (storeErrCaught se))) := by
  refine ⟨validateKeyword_isSome keyword, ?_, ?_, ?_, ?_, ?_, ?_⟩
  · intro e he
    constructor
    · unfold validateKeyword at he
      split_ifs at he <;> cases he <;> rfl
    · unfold searchUsersByKeyword
      rw [he]
  · intro h
    unfold validateKeyword
    rw [if_pos (by simpa using h)]
  · intro h
    unfold validateKeyword
    rw [if_neg (by simp [h]), if_pos (by omega)]
  · intro h
    unfold validateKeyword
    rw [if_neg (by simp; omega), if_neg (by omega), if_pos h]
  · intro h2 h30 hbad
    unfold validateKeyword
    rw [if_neg (by simp; omega), if_neg (by omega), if_neg (by omega), if_pos hbad]
  · intro hv
    unfold searchUsersByKeyword
    rw [hv]

/-- Witness for C5 at the keyword "ab" (valid: the failing store's error is
what comes back) and with a failing store. -/
theorem c5_keyword_validation_witness :
    ((validateKeyword ("ab")).isSome ↔
      (strLen (jsTrim ("ab")) < 2 ∨ 30 < strLen (jsTrim ("ab")) ∨
       hasForbiddenChar (jsTrim ("ab")) = true)) ∧
    (∀ e, validateKeyword ("ab") = some e →
      e.status = 400 ∧ searchUsersByKeyword (.ok []) ("ab") = .error e) ∧
    (strLen (jsTrim ("ab")) = 0 →
      validateKeyword ("ab") = some ⟨400, emptyKeywordMessage⟩) ∧
    (strLen (jsTrim ("ab")) = 1 →
      validateKeyword ("ab") = some ⟨400, shortKeywordMessage⟩) ∧
    (30 < strLen (jsTrim ("ab")) →
      validateKeyword ("ab") = some ⟨400, longKeywordMessage⟩) ∧
    (2 ≤ strLen (jsTrim ("ab")) → strLen (jsTrim ("ab")) ≤ 30 →
      hasForbiddenChar (jsTrim ("ab")) = true →
      validateKeyword ("ab") = some ⟨400, invalidCharsKeywordMessage⟩) ∧
    (validateKeyword ("ab") = none →
      searchUsersByKeyword (.error sampleStoreErr) ("ab") =
        .error (handleCommonErrors (storeErrCaught sampleStoreErr))) :=
  c5_keyword_validation ("ab") sampleStoreErr (.ok [])

theorem prefixChars_iff (need hay : List Char) :
    prefixChars need hay = true ↔ need <+: hay := by
  induction need generalizing hay with
  | nil => simp [prefixChars]
  | cons a as ih =>
    cases hay with
    | nil => simp [prefixChars]
    | cons b bs => simp [prefixChars, ih, List.cons_prefix_cons]

theorem containsChars_iff (hay need : List Char) :
    containsChars hay need = true ↔ need.IsInfix hay := by
  induction hay with
  | nil => simp [containsChars, List.isEmpty_iff]
  | cons b bs ih =>
    rw [containsChars]
    simp [ih, prefixChars_iff, List.infix_cons_iff]

theorem matchesKeyword_iff (kw : String) (u : User) :
    matchesKeyword kw u = true ↔
      ((lowerChars kw).IsInfix (lowerChars u.userId) ∨
       (lowerChars kw).IsInfix (lowerChars u.nickname)) := by
  simp [matchesKeyword, ciContains, containsChars_iff]

/-- C6: for a valid keyword, search returns the top-50 of the ranked order
of exactly the records whose identifier or display name contains the
trimmed keyword case-insensitively as a substring; the returned list holds
`min(50, matchCount)` records (never more than 50, a hard truncation), the
returned `totalCount` is the length of that possibly-truncated list, and
the returned keyword is the trimmed input. -/
theorem c6_search_truncation (users : List User) (keyword : String)
    (hv : validateKeyword keyword = none) :
    ∃ s, searchUsersByKeyword (.ok users) keyword = .ok s ∧
      s.searchResults =
        ((rankSort (users.filter (matchesKeyword (jsTrim keyword)))).take 50).map toSearchView ∧
      s.searchResults.length =
        min 50 (users.countP (fun u => matchesKeyword (jsTrim keyword) u)) ∧
      s.searchResults.length ≤ 50 ∧
      s.totalCount = s.searchResults.length ∧
      s.keyword = jsTrim keyword ∧
      (∀ v ∈ s.searchResults, ∃ u ∈ users,
        ((lowerChars (jsTrim keyword)).IsInfix (lowerChars u.userId) ∨
         (lowerChars (jsTrim keyword)).IsInfix (lowerChars u.nickname)) ∧
        v = toSearchView u) := by
  have hshape : searchUsersByKeyword (.ok users) keyword =
      .ok ⟨((rankSort (users.filter (matchesKeyword (jsTrim keyword)))).take 50).map toSearchView,
           (((rankSort (users.filter (matchesKeyword (jsTrim keyword)))).take 50).map
             toSearchView).length,
           jsTrim keyword⟩ := by
    unfold searchUsersByKeyword
    rw [hv]
  have hlen : (((rankSort (users.filter (matchesKeyword (jsTrim keyword)))).take 50).map
      toSearchView).length =
      min 50 (users.countP (fun u => matchesKeyword (jsTrim keyword) u)) := by
    rw [List.length_map, List.length_take, rankSort_length,
      ← List.countP_eq_length_filter]
  refine ⟨_, hshape, rfl, hlen, ?_, rfl, rfl, ?_⟩
  · rw [hlen]
    exact Nat.min_le_left _ _
  · intro v hvmem
    rcases List.mem_map.mp hvmem with ⟨u, hu, rfl⟩
    have humem : u ∈ users.filter (matchesKeyword (jsTrim keyword)) :=
      mem_rankSort.mp (List.mem_of_mem_take hu)
    rcases List.mem_filter.mp humem with ⟨huu, hmatch⟩
    exact ⟨u, huu, (matchesKeyword_iff (jsTrim keyword) u).mp hmatch, rfl⟩

/-- Witness for C6: searching "be" over the three-record store. -/
theorem c6_search_truncation_witness :
    ∃ s, searchUsersByKeyword (.ok [sampleUserA, sampleUserB, sampleUserC]) ("be") = .ok s ∧
      s.searchResults =
        ((rankSort ([sampleUserA, sampleUserB, sampleUserC].filter
           (matchesKeyword (jsTrim ("be"))))).take 50).map toSearchView ∧
      s.searchResults.length =
        min 50 ([sampleUserA, sampleUserB, sampleUserC].countP
          (fun u => matchesKeyword (jsTrim ("be")) u)) ∧
      s.searchResults.length ≤ 50 ∧
      s.totalCount = s.searchResults.length ∧
      s.keyword = jsTrim ("be") ∧
      (∀ v ∈ s.searchResults, ∃ u ∈ [sampleUserA, sampleUserB, sampleUserC],
        ((lowerChars (jsTrim ("be"))).IsInfix (lowerChars u.userId) ∨
         (lowerChars (jsTrim ("be"))).IsInfix (lowerChars u.nickname)) ∧
        v = toSearchView u) :=
  c6_search_truncation [sampleUserA, sampleUserB, sampleUserC] ("be") rfl

theorem deleteUser_notFound (users : List User) (uid : String)
    (hv : validateUserId uid = none)
    (hfind : users.find? (fun v => v.userId == uid) = none) :
    deleteUserByUserId (.ok users) uid = (.error ⟨404, userNotFoundMessage⟩, .ok users) := by
  unfold deleteUserByUserId
  rw [hv]
  dsimp only
  rw [hfind]
  rfl

theorem deleteUser_found (users : List User) (uid : String) (w : User)
    (hv : validateUserId uid = none)
    (hfind : users.find? (fun v => v.userId == uid) = some w) :
    deleteUserByUserId (.ok users) uid =
      (.ok ⟨true, deletedMessage uid⟩,
       .ok (users.filter (fun v => !(v.userId == uid)))) := by
  unfold deleteUserByUserId
  rw [hv]
  dsimp only
  rw [hfind]

theorem countP_userId_eq_one (users : List User) (uid : String) (u : User)
    (huniq : (users.map User.userId).Nodup) (hu : u ∈ users) (hid : u.userId = uid) :
    users.countP (fun v => v.userId == uid) = 1 := by
  have hmem : uid ∈ users.map User.userId := List.mem_map.mpr ⟨u, hu, hid⟩
  have hle : (users.map User.userId).count uid ≤ 1 :=
    List.nodup_iff_count_le_one.mp huniq uid
  have hpos : 0 < (users.map User.userId).count uid := List.count_pos_iff.mpr hmem
  have hcount : (users.map User.userId).count uid =
      users.countP (fun v => v.userId == uid) := by
    rw [List.count, List.countP_map]
    rfl
  omega

theorem filter_ne_userId_length (users : List User) (uid : String) (u : User)
    (huniq : (users.map User.userId).Nodup) (hu : u ∈ users) (hid : u.userId = uid) :
    (users.filter (fun v => !(v.userId == uid))).length + 1 = users.length := by
  have h1 := @List.length_eq_countP_add_countP User (fun v => v.userId == uid) users
  simp only [decide_not, Bool.decide_eq_true] at h1
  have h2 : (users.filter (fun v => !(v.userId == uid))).length =
      users.countP (fun v => !(v.userId == uid)) :=
    (@List.countP_eq_length_filter User (fun v => !(v.userId == uid)) users).symm
  have h3 := countP_userId_eq_one users uid u huniq hu hid
  omega

/-- C7: for a valid identifier over a store with unique identifiers: if no
record carries it, delete fails with `NotFound` (404) and the store is
unchanged; if one does, delete succeeds with a message naming the
identifier and removes exactly that record (all others survive, the store
shrinks by one); a second delete of the same identifier then fails with
`NotFound` and leaves the store unchanged again. -/
theorem c7_delete_record (users : List User) (uid : String) (u : User)
    (hv : validateUserId uid = none)
    (huniq : (users.map User.userId).Nodup) :
    ((∀ v ∈ users, v.userId ≠ uid) →
      deleteUserByUserId (.ok users) uid = (.error ⟨404, userNotFoundMessage⟩, .ok users)) ∧
    (u ∈ users → u.userId = uid →
      (deleteUserByUserId (.ok users) uid).1 = .ok ⟨true, deletedMessage uid⟩ ∧
      ∃ rest, (deleteUserByUserId (.ok users) uid).2 = .ok rest ∧
        rest.length + 1 = users.length ∧
        (∀ v ∈ rest, v ∈ users ∧ v.userId ≠ uid) ∧
        (∀ v ∈ users, v.userId ≠ uid → v ∈ rest) ∧
        deleteUserByUserId (.ok rest) uid = (.error ⟨404, userNotFoundMessage⟩, .ok rest)) := by
  constructor
  · intro hnone
    apply deleteUser_notFound users uid hv
    rw [List.find?_eq_none]
    intro v hvmem
    simpa using hnone v hvmem
  · intro hu hid
    have hfind : ∃ w, users.find? (fun v => v.userId == uid) = some w := by
      have hsome : (users.find? (fun v => v.userId == uid)).isSome := by
        rw [List.find?_isSome]
        exact ⟨u, hu, by simpa using hid⟩
      exact Option.isSome_iff_exists.mp hsome
    rcases hfind with ⟨w, hw⟩
    rw [deleteUser_found users uid w hv hw]
    refine ⟨rfl, users.filter (fun v => !(v.userId == uid)), rfl, ?_, ?_, ?_, ?_⟩
    · exact filter_ne_userId_length users uid u huniq hu hid
    · intro v hvmem
      rcases List.mem_filter.mp hvmem with ⟨hv1, hv2⟩
      exact ⟨hv1, by simpa using hv2⟩
    · intro v hvmem hvne
      exact List.mem_filter.mpr ⟨hvmem, by simpa using hvne⟩
    · apply deleteUser_notFound _ uid hv
      rw [List.find?_eq_none]
      intro v hvmem
      rcases List.mem_filter.mp hvmem with ⟨_, hv2⟩
      simpa using hv2

/-- Witness for C7: deleting "beta" from the three-record store. -/
theorem c7_delete_record_witness :
    ((∀ v ∈ [sampleUserA, sampleUserB, sampleUserC], v.userId ≠ ("beta" : String)) →
      deleteUserByUserId (.ok [sampleUserA, sampleUserB, sampleUserC]) ("beta") =
        (.error ⟨404, userNotFoundMessage⟩, .ok [sampleUserA, sampleUserB, sampleUserC])) ∧
    (sampleUserB ∈ [sampleUserA, sampleUserB, sampleUserC] →
      sampleUserB.userId = ("beta" : String) →
      (deleteUserByUserId (.ok [sampleUserA, sampleUserB, sampleUserC]) ("beta")).1 =
        .ok ⟨true, deletedMessage ("beta")⟩ ∧
      ∃ rest,
        (deleteUserByUserId (.ok [sampleUserA, sampleUserB, sampleUserC]) ("beta")).2 =
          .ok rest ∧
        rest.length + 1 = [sampleUserA, sampleUserB, sampleUserC].length ∧
        (∀ v ∈ rest, v ∈ [sampleUserA, sampleUserB, sampleUserC] ∧
          v.userId ≠ ("beta" : String)) ∧
        (∀ v ∈ [sampleUserA, sampleUserB, sampleUserC],
          v.userId ≠ ("beta" : String) → v ∈ rest) ∧
        deleteUserByUserId (.ok rest) ("beta") =
          (.error ⟨404, userNotFoundMessage⟩, .ok rest)) :=
  c7_delete_record [sampleUserA, sampleUserB, sampleUserC] ("beta") sampleUserB
    (by decide) (by decide)

theorem controllerGetRanked_eq (db : StoreBehavior) (page pageSize : Option String) :
    controllerGetRanked db page pageSize =
      getRankedUsers db (jsOrInt (page.bind parseIntJS) 1)
        (jsOrInt (pageSize.bind parseIntJS) 10) := rfl

/-- C9 counterexample: the query string "0" is parseable and parses to the
integer 0, yet the controller passes the default page 1 to the service
instead of 0 — `parseInt(page, 10) || 1` treats the parsed 0 as falsy.
Passing 0 through would instead fail validation with a 400 error, which is
observably different. -/
theorem c9_counterexample :
    parseIntJS ("0") = some 0 ∧
    controllerGetRanked (.fine [sampleUserA]) (some ("0")) none =
      getRankedUsers (.fine [sampleUserA]) 1 10 ∧
    getRankedUsers (.fine [sampleUserA]) 0 10 = .error ⟨400, pageMessage⟩ ∧
    getRankedUsers (.fine [sampleUserA]) 1 10 ≠ .error ⟨400, pageMessage⟩ := by
  refine ⟨rfl, rfl, rfl, ?_⟩
  have h1 : getRankedUsers (.fine [sampleUserA]) 1 10 =
      .ok ⟨((rankSort [sampleUserA]).drop 0).take 10, 1, 1, 1, false⟩ := rfl
  rw [h1]
  simp

/-- C9 as amended: each query string is coerced with
`parseInt(…, 10) || default`, so the default (`page = 1`, `pageSize = 10`)
is applied exactly when the string is missing, unparseable, or parses to 0
(a falsy number); any string parsing to a nonzero integer is passed
through as that integer. -/
theorem c9_amended_coercion (db : StoreBehavior) (s bad z : String) (n : Int)
    (hs : parseIntJS s = some n) (hn : n ≠ 0)
    (hbad : parseIntJS bad = none)
    (hz : parseIntJS z = some 0) :
    controllerGetRanked db none none = getRankedUsers db 1 10 ∧
    controllerGetRanked db (some bad) (some bad) = getRankedUsers db 1 10 ∧
    controllerGetRanked db (some z) (some z) = getRankedUsers db 1 10 ∧
    controllerGetRanked db (some s) none = getRankedUsers db n 10 ∧
    controllerGetRanked db none (some s) = getRankedUsers db 1 n ∧
    controllerGetRanked db (some s) (some s) = getRankedUsers db n n := by
  have hif : (if (n == 0 : Bool) then (1 : Int) else n) = n := by
    rw [if_neg (by simpa using hn)]
  have hif10 : (if (n == 0 : Bool) then (10 : Int) else n) = n := by
    rw [if_neg (by simpa using hn)]
  refine ⟨rfl, ?_, ?_, ?_, ?_, ?_⟩
  · rw [controllerGetRanked_eq, show (some bad).bind parseIntJS = none from hbad]
    rfl
  · rw [controllerGetRanked_eq, show (some z).bind parseIntJS = some 0 from hz]
    rfl
  · rw [controllerGetRanked_eq, show (some s).bind parseIntJS = some n from hs]
    show getRankedUsers db (if (n == 0 : Bool) then 1 else n) 10 = getRankedUsers db n 10
    rw [hif]
  · rw [controllerGetRanked_eq, show (some s).bind parseIntJS = some n from hs]
    show getRankedUsers db 1 (if (n == 0 : Bool) then 10 else n) = getRankedUsers db 1 n
    rw [hif10]
  · rw [controllerGetRanked_eq, show (some s).bind parseIntJS = some n from hs]
    show getRankedUsers db (if (n == 0 : Bool) then 1 else n)
        (if (n == 0 : Bool) then 10 else n) = getRankedUsers db n n
    rw [hif, hif10]

/-- Witness for the amended C9: "5" passes 5 through, "x" and "0" fall
back to the defaults. -/
theorem c9_amended_coercion_witness :
    controllerGetRanked (.fine [sampleUserA]) none none =
      getRankedUsers (.fine [sampleUserA]) 1 10 ∧
    controllerGetRanked (.fine [sampleUserA]) (some ("x")) (some ("x")) =
      getRankedUsers (.fine [sampleUserA]) 1 10 ∧
    controllerGetRanked (.fine [sampleUserA]) (some ("0")) (some ("0")) =
      getRankedUsers (.fine [sampleUserA]) 1 10 ∧
    controllerGetRanked (.fine [sampleUserA]) (some ("5")) none =
      getRankedUsers (.fine [sampleUserA]) 5 10 ∧
    controllerGetRanked (.fine [sampleUserA]) none (some ("5")) =
      getRankedUsers (.fine [sampleUserA]) 1 5 ∧
    controllerGetRanked (.fine [sampleUserA]) (some ("5")) (some ("5")) =
      getRankedUsers (.fine [sampleUserA]) 5 5 :=
  c9_amended_coercion (.fine [sampleUserA]) ("5") ("x") ("0") 5 rfl (by decide) rfl rfl

/-- C10: search responses expose exactly the nine selected columns
(`userId, nickname, level, job, jobCode, meso, playTime, exp, createdAt`):
every search record is the projection `toSearchView` of a stored record;
that projection is determined by exactly those nine fields and forgets the
internal primary key `id` and `updatedAt` (two stored records differing
only there share one search view); ranked responses instead return the
stored records themselves, `id` and `updatedAt` included — the two
operations return differently shaped records. -/
theorem c10_result_shapes (users : List User) (keyword : String) (page pageSize : Int)
    (r : RankedResponse) (s : SearchResponse)
    (hr : getRankedUsers (.fine users) page pageSize = .ok r)
    (hs : searchUsersByKeyword (.ok users) keyword = .ok s) :
    (∀ v ∈ s.searchResults, ∃ u ∈ users, v = toSearchView u) ∧
    (∀ v ∈ r.users, v ∈ users) ∧
    (∀ u1 u2 : User, toSearchView u1 = toSearchView u2 ↔
      (u1.userId = u2.userId ∧ u1.nickname = u2.nickname ∧ u1.level = u2.level ∧
       u1.job = u2.job ∧ u1.jobCode = u2.jobCode ∧ u1.meso = u2.meso ∧
       u1.playTime = u2.playTime ∧ u1.exp = u2.exp ∧ u1.createdAt = u2.createdAt)) ∧
    (toSearchView sampleUserA = toSearchView sampleUserA2 ∧ sampleUserA ≠ sampleUserA2) := by
  refine ⟨?_, ?_, ?_, rfl, by decide⟩
  · rw [searchUsersByKeyword_ok_shape users keyword s hs]
    intro v hvmem
    rcases List.mem_map.mp hvmem with ⟨u, hu, rfl⟩
    have humem : u ∈ users.filter (matchesKeyword (jsTrim keyword)) :=
      mem_rankSort.mp (List.mem_of_mem_take hu)
    exact ⟨u, (List.mem_filter.mp humem).1, rfl⟩
  · intro v hvmem
    rcases getRankedUsers_ok_users users page pageSize r hr with h | ⟨skip, ps, h⟩
    · rw [h] at hvmem
      cases hvmem
    · rw [h] at hvmem
      exact mem_rankSort.mp (List.mem_of_mem_drop (List.mem_of_mem_take hvmem))
  · intro u1 u2
    simp [toSearchView]

/-- Witness for C10 over the three-record store with the search keyword
"be" and page 1 of size 10. -/
theorem c10_result_shapes_witness :
    (∀ v ∈ (SearchResponse.searchResults
        ⟨((rankSort ([sampleUserA, sampleUserB, sampleUserC].filter
             (matchesKeyword (jsTrim ("be"))))).take 50).map toSearchView,
          (((rankSort ([sampleUserA, sampleUserB, sampleUserC].filter
             (matchesKeyword (jsTrim ("be"))))).take 50).map toSearchView).length,
          jsTrim ("be")⟩),
      ∃ u ∈ [sampleUserA, sampleUserB, sampleUserC], v = toSearchView u) ∧
    (∀ v ∈ (RankedResponse.users
        ⟨((rankSort [sampleUserA, sampleUserB, sampleUserC]).drop 0).take 10, 3, 1, 1, false⟩),
      v ∈ [sampleUserA, sampleUserB, sampleUserC]) ∧
    (∀ u1 u2 : User, toSearchView u1 = toSearchView u2 ↔
      (u1.userId = u2.userId ∧ u1.nickname = u2.nickname ∧ u1.level = u2.level ∧
       u1.job = u2.job ∧ u1.jobCode = u2.jobCode ∧ u1.meso = u2.meso ∧
       u1.playTime = u2.playTime ∧ u1.exp = u2.exp ∧ u1.createdAt = u2.createdAt)) ∧
    (toSearchView sampleUserA = toSearchView sampleUserA2 ∧ sampleUserA ≠ sampleUserA2) :=
  c10_result_shapes [sampleUserA, sampleUserB, sampleUserC] ("be") 1 10
    ⟨((rankSort [sampleUserA, sampleUserB, sampleUserC]).drop 0).take 10, 3, 1, 1, false⟩
    ⟨((rankSort ([sampleUserA, sampleUserB, sampleUserC].filter
         (matchesKeyword (jsTrim ("be"))))).take 50).map toSearchView,
      (((rankSort ([sampleUserA, sampleUserB, sampleUserC].filter
         (matchesKeyword (jsTrim ("be"))))).take 50).map toSearchView).length,
      jsTrim ("be")⟩
    rfl rfl

end RushEight
